import Mathlib

/-!
Verification of the SDR briefing app (`src/app.py`).

The file shallowly embeds the program: Python dict/list/str values produced by
`response.json()` and `json.loads` become an inductive `PyVal` type; the
subscript operations, the truthiness test, `str.lower()`, the `in` operator and
`str.replace` are modelled as executable Lean functions mirroring Python
semantics on the shapes the program exercises; `call_gemini` is translated as a
function from the API-key configuration and the HTTP interaction result to an
outcome paired with the number of network calls performed.
-/

/-- Python values of JSON shape, as produced by `response.json()` and
`json.loads`: dicts become association lists preserving insertion order. -/
inductive PyVal where
  | pyNone
  | pyBool (b : Bool)
  | pyInt (n : Int)
  | pyStr (s : String)
  | pyList (items : List PyVal)
  | pyDict (entries : List (String × PyVal))

/-- Python exceptions that can escape the subscripting code in `call_gemini`
(lines 76-78 of `src/app.py`): these are not caught by the two `except`
clauses (which catch only `requests.exceptions.RequestException` and
`json.JSONDecodeError`). -/
inductive PyError where
  | keyError (k : String)
  | indexError
  | typeError

/-- Python `d[k]` subscripting with a string key. On a dict it returns the
value or raises `KeyError`; on any other value the program's shapes raise
`TypeError` (a dict subscripted with an int key raises `KeyError` in Python,
a corner conflated into `typeError` here; no code path of the app reaches it). -/
def PyVal.getKey : PyVal → String → Except PyError PyVal
  | .pyDict fs, k =>
    match fs.find? (fun f => f.1 == k) with
    | some f => .ok f.2
    | none => .error (.keyError k)
  | _, _ => .error .typeError

/-- Python `xs[i]` subscripting with an int index: on a list it returns the
element or raises `IndexError`; on other values, `TypeError` (same dict-key
caveat as `PyVal.getKey`). 0 is the only index the program uses. -/
def PyVal.getIdx : PyVal → Nat → Except PyError PyVal
  | .pyList xs, i =>
    match xs.get? i with
    | some v => .ok v
    | none => .error .indexError
  | _, _ => .error .typeError

/-- Python truthiness of a JSON-shaped value: `None`, `False`, `0`, `""`,
`[]` and the empty dict are falsy, everything else truthy. -/
def PyVal.truthy : PyVal → Bool
  | .pyNone => false
  | .pyBool b => b
  | .pyInt n => n != 0
  | .pyStr s => s != ""
  | .pyList xs => !xs.isEmpty
  | .pyDict fs => !fs.isEmpty

/-- Substring occurrence on character lists: true iff `pat` occurs
contiguously inside `s`. -/
def infixCheck (pat s : List Char) : Bool :=
  match s with
  | [] => pat.isEmpty
  | c :: rest => pat.isPrefixOf (c :: rest) || infixCheck pat rest

/-- Python `pat in s` for strings: substring containment. -/
def strContains (s pat : String) : Bool := infixCheck pat.data s.data

/-- Python `k in j` (the membership test on line 76 of `src/app.py`): key
lookup on a dict, element equality on a list (only string elements can equal
the string key), substring test on a string, `TypeError` otherwise. -/
def pyContains (j : PyVal) (k : String) : Except PyError Bool :=
  match j with
  | .pyDict fs => .ok (fs.any (fun f => f.1 == k))
  | .pyList xs =>
    .ok (xs.any (fun x =>
      match x with
      | .pyStr s => s == k
      | _ => false))
  | .pyStr s => .ok (strContains s k)
  | _ => .error .typeError

/-- JSON whitespace skipping, as in Python's `json.loads` (space, newline,
tab, carriage return). -/
def skipBlanks : List Char → List Char
  | [] => []
  | c :: rest =>
    if c == ' ' then skipBlanks rest
    else if c == '\n' then skipBlanks rest
    else if c == '\t' then skipBlanks rest
    else if c == '\r' then skipBlanks rest
    else c :: rest

/-- JSON string escape characters handled by the model of `json.loads`
(`\u` escapes are not modelled; no input of the program uses them). -/
def escChar : Char → Option Char
  | 'b' => some (Char.ofNat 8)
  | '"' => some '"'
  | 'f' => some (Char.ofNat 12)
  | '\\' => some '\\'
  | 'n' => some '\n'
  | '/' => some '/'
  | 't' => some '\t'
  | 'r' => some '\r'
  | _ => none

/-- Body of a JSON string literal after the opening quote: returns the decoded
characters and the remaining input after the closing quote. -/
def readStrBody : List Char → Option (List Char × List Char)
  | [] => none
  | '"' :: rest => some ([], rest)
  | '\\' :: rest =>
    match rest with
    | [] => none
    | e :: rest2 =>
      match escChar e with
      | some c =>
        match readStrBody rest2 with
        | some (s, r) => some (c :: s, r)
        | none => none
      | none => none
  | c :: rest =>
    match readStrBody rest with
    | some (s, r) => some (c :: s, r)
    | none => none

/-- Reads a maximal run of decimal digits, accumulating their value. -/
def digitsAux : List Char → Nat → Nat × List Char
  | [], acc => (acc, [])
  | c :: rest, acc =>
    if c.isDigit then digitsAux rest (acc * 10 + (c.toNat - 48))
    else (acc, c :: rest)

/-- Mode of the recursive JSON reader: a single value, the items of an array
after the opening bracket, or the members of an object after the opening
brace. -/
inductive PMode where
  | val
  | pyListItems
  | pyDictItems

/-- Fuel-indexed JSON reader modelling `json.loads`. Covers null, booleans,
integers, strings, arrays and objects (floats and `\u` escapes are not
modelled; the program's briefing payloads contain none). In `arrItems` and
`objItems` mode the returned value is the `.pyList` / `.pyDict` of the remaining
items. -/
def parseAux : Nat → PMode → List Char → Option (PyVal × List Char)
  | 0, _, _ => none
  | fuel + 1, .val, cs =>
    match skipBlanks cs with
    | [] => none
    | 'n' :: 'u' :: 'l' :: 'l' :: rest => some (.pyNone, rest)
    | 't' :: 'r' :: 'u' :: 'e' :: rest => some (.pyBool true, rest)
    | 'f' :: 'a' :: 'l' :: 's' :: 'e' :: rest => some (.pyBool false, rest)
    | '"' :: rest =>
      match readStrBody rest with
      | some (s, r) => some (.pyStr (String.mk s), r)
      | none => none
    | '[' :: rest =>
      match skipBlanks rest with
      | ']' :: r => some (.pyList [], r)
      | cs2 => parseAux fuel .pyListItems cs2
    | '\x7b' :: rest =>
      match skipBlanks rest with
      | '\x7d' :: r => some (.pyDict [], r)
      | cs2 => parseAux fuel .pyDictItems cs2
    | '-' :: rest =>
      match rest with
      | [] => none
      | c :: _ =>
        if c.isDigit then
          match digitsAux rest 0 with
          | (n, r) => some (.pyInt (-(Int.ofNat n)), r)
        else none
    | c :: rest =>
      if c.isDigit then
        match digitsAux (c :: rest) 0 with
        | (n, r) => some (.pyInt (Int.ofNat n), r)
      else none
  | fuel + 1, .pyListItems, cs =>
    match parseAux fuel .val cs with
    | none => none
    | some (v, r) =>
      match skipBlanks r with
      | ',' :: r2 =>
        match parseAux fuel .pyListItems (skipBlanks r2) with
        | some (.pyList vs, r3) => some (.pyList (v :: vs), r3)
        | _ => none
      | ']' :: r2 => some (.pyList [v], r2)
      | _ => none
  | fuel + 1, .pyDictItems, cs =>
    match cs with
    | '"' :: rest =>
      match readStrBody rest with
      | none => none
      | some (key, r) =>
        match skipBlanks r with
        | ':' :: r2 =>
          match parseAux fuel .val r2 with
          | none => none
          | some (v, r3) =>
            match skipBlanks r3 with
            | ',' :: r4 =>
              match parseAux fuel .pyDictItems (skipBlanks r4) with
              | some (.pyDict ms, r5) => some (.pyDict ((String.mk key, v) :: ms), r5)
              | _ => none
            | '\x7d' :: r4 => some (.pyDict [(String.mk key, v)], r4)
            | _ => none
        | _ => none
    | _ => none

/-- Model of Python `json.loads`: parses one JSON value and requires only
whitespace to remain. Returns `none` where `json.loads` raises
`json.JSONDecodeError`. -/
def pyJsonLoads (s : String) : Option PyVal :=
  match parseAux (2 * s.data.length + 2) .val s.data with
  | some (v, rest) => if (skipBlanks rest).isEmpty then some v else none
  | none => none

/-- Result of the single `requests.post` interaction: either a raised
`requests.exceptions.RequestException` (covering transport failures and the
`raise_for_status` HTTPError on non-success statuses) or a successful
response whose body parsed to a JSON envelope. -/
inductive HttpResult where
  | requestException (msg : String)
  | success (body : PyVal)

/-- Observable outcome of `call_gemini`, following the spec's error taxonomy:
`ok` is a returned payload, `configurationError` the missing-key
`st.error` + `st.stop` path, `networkError` the caught RequestException path,
`malformedResponse` the missing/empty-candidates path (carrying the raw
envelope shown via `st.json`), `decodeError` the caught JSONDecodeError path,
and `uncaught` a Python exception that escapes `call_gemini` uncaught. -/
inductive Outcome where
  | ok (data : PyVal)
  | configurationError
  | networkError (msg : String)
  | malformedResponse (raw : PyVal)
  | decodeError
  | uncaught (e : PyError)

/-- Evaluation of the guard on line 76 of `src/app.py`:
`'candidates' in result and result['candidates']` (short-circuiting; the
subscript itself can raise). -/
def pyCondCandidates (result : PyVal) : Except PyError Bool :=
  match pyContains result "candidates" with
  | .error e => .error e
  | .ok false => .ok false
  | .ok true =>
    match result.getKey "candidates" with
    | .error e => .error e
    | .ok v => .ok v.truthy

/-- The chained subscripting on line 77 of `src/app.py`:
`result['candidates'][0]['content']['parts'][0]['text']`. -/
def extractText (result : PyVal) : Except PyError PyVal :=
  match result.getKey "candidates" with
  | .error e => .error e
  | .ok cands =>
    match cands.getIdx 0 with
    | .error e => .error e
    | .ok c0 =>
      match c0.getKey "content" with
      | .error e => .error e
      | .ok content =>
        match content.getKey "parts" with
        | .error e => .error e
        | .ok parts =>
          match parts.getIdx 0 with
          | .error e => .error e
          | .ok p0 => p0.getKey "text"

/-- The tail of the line-77 subscript chain, from the first candidate onward:
`candidate['content']['parts'][0]['text']`. `extractText` is this chain
applied to `result['candidates'][0]`. -/
def candidateText (c : PyVal) : Except PyError PyVal :=
  match c.getKey "content" with
  | .error e => .error e
  | .ok content =>
    match content.getKey "parts" with
    | .error e => .error e
    | .ok parts =>
      match parts.getIdx 0 with
      | .error e => .error e
      | .ok p0 => p0.getKey "text"

/-- Embedding of `call_gemini` (lines 13-89 of `src/app.py`). `apiKey` models
`st.secrets["GEMINI_API_KEY"]` (`none` = the KeyError/FileNotFoundError path);
`resp` models the result of the single `requests.post`. The second component
counts network calls performed. `json.loads` applied to a non-string raises
`TypeError` (uncaught), hence the final catch-all arm. -/
def call_gemini (apiKey : Option String) (resp : HttpResult) : Outcome × Nat :=
  match apiKey with
  | none => (.configurationError, 0)
  | some _ =>
    match resp with
    | .requestException msg => (.networkError msg, 1)
    | .success result =>
      match pyCondCandidates result with
      | .error e => (.uncaught e, 1)
      | .ok false => (.malformedResponse result, 1)
      | .ok true =>
        match extractText result with
        | .error e => (.uncaught e, 1)
        | .ok (.pyStr raw) =>
          match pyJsonLoads raw with
          | some v => (.ok v, 1)
          | none => (.decodeError, 1)
        | .ok _ => (.uncaught .typeError, 1)

/-- The submit handler's guard `if ai_data:` (line 141 of `src/app.py`): the
renderer runs only when `call_gemini` returned a truthy value. Error paths
return `None` (falsy), `st.stop` and uncaught exceptions never reach the
guard. -/
def renderer_invoked (o : Outcome) : Bool :=
  match o with
  | .ok j => j.truthy
  | _ => false

/-- The envelope shape documented in the spec (section 6):
`candidates[0].content.parts[0].text` holding the embedded payload text. -/
def mkEnvelope (text : String) : PyVal :=
  .pyDict [("candidates", .pyList [.pyDict [("content",
    .pyDict [("parts", .pyList [.pyDict [("text", .pyStr text)]])])]])]

/-- Model of Python `str.lower()` (line 97 of `src/app.py`), mapping ASCII
letters to lower case characterwise (full Unicode case folding is not
modelled; every keyword and tested input is ASCII). -/
def pyLower (s : String) : String := String.mk (s.data.map Char.toLower)

/-- Reference sentence returned for the "application" keyword
(line 99 of `src/app.py`). -/
def instacart_reference : String :=
  "Instacart built their data-intensive applications on Snowflake, allowing them to scale to millions of users while reducing their infrastructure costs by 30%."

/-- Reference sentence returned for the "ai"/"ml" keywords
(line 101 of `src/app.py`). -/
def western_union_reference : String :=
  "Western Union leveraged Snowflake to reduce the development time for their fraud detection models by 75% and can now deploy new AI models in days instead of months."

/-- Reference sentence returned for the "finance" keyword
(line 103 of `src/app.py`). -/
def blackrock_reference : String :=
  "BlackRock runs its Aladdin platform on Snowflake, processing trillions of dollars in financial transactions and providing clients with near real-time investment insights."

/-- Default reference sentence (line 104 of `src/app.py`). -/
def capital_one_reference : String :=
  "Capital One modernized their data stack with Snowflake to enable better customer experiences and faster innovation, all within a secure and governed environment."

/-- Embedding of `get_customer_reference` (lines 93-104 of `src/app.py`):
lower-cases the use case and tests the four keyword categories in source
order via Python substring membership. -/
def get_customer_reference (use_case : String) : String :=
  let lower_case := pyLower use_case
  if strContains lower_case "application" then instacart_reference
  else if strContains lower_case "ai" || strContains lower_case "ml" then western_union_reference
  else if strContains lower_case "finance" then blackrock_reference
  else capital_one_reference

/-- One left-to-right non-overlapping replacement pass over a character list,
with fuel (each step consumes at least one character, so fuel = length of the
input suffices for a non-empty pattern). -/
def replaceAux (pat rep : List Char) : Nat → List Char → List Char
  | 0, s => s
  | _ + 1, [] => []
  | fuel + 1, c :: rest =>
    if pat.isPrefixOf (c :: rest) then
      rep ++ replaceAux pat rep fuel (List.drop pat.length (c :: rest))
    else
      c :: replaceAux pat rep fuel rest

/-- Model of Python `str.replace(pat, rep)`: replaces every non-overlapping
occurrence, left to right; an empty pattern inserts `rep` at every position,
as Python does. -/
def pyReplace (s pat rep : String) : String :=
  if pat.data.isEmpty then
    String.mk (rep.data ++ (s.data.map (fun c => c :: rep.data)).flatten)
  else
    String.mk (replaceAux pat.data rep.data s.data.length s.data)

/-- The six form fields packaged by the submit handler
(lines 129-136 of `src/app.py`). -/
structure FormData where
  personaName : String
  title : String
  accountName : String
  status : String
  linkedinInfo : String
  supportingInfo : String

/-- Placeholder substitution applied to each opening statement (line 168 of
`src/app.py`): replace the literal token "[Persona Name]" with the record's
persona name, then the literal token "[SDR Name]" with "[Your Name]". -/
def render_statement (fd : FormData) (statement : String) : String :=
  pyReplace (pyReplace statement "[Persona Name]" fd.personaName) "[SDR Name]" "[Your Name]"

/-- Python `s or d` for strings (lines 150-151 of `src/app.py`): the empty
string is falsy, so it yields the default. -/
def pyOrStr (s d : String) : String := if s = "" then d else s

/-- The at-a-glance intel markdown body (the f-string of lines 147-152 of
`src/app.py`), written as the same literal text split at the interpolation
points. -/
def intel_section (fd : FormData) : String :=
  "\n        - **Persona:** " ++ fd.personaName ++ ", " ++ fd.title ++
  "\n        - **Account:** " ++ fd.accountName ++ " (" ++ fd.status ++
  ")\n        - **LinkedIn Intel:** " ++ pyOrStr fd.linkedinInfo "Not provided." ++
  "\n        - **Key Trigger Intel:** " ++ pyOrStr fd.supportingInfo "Not provided." ++
  "\n        "

/-! ## Helper lemmas about substring containment -/

/-- Unfolding `String.data` over string append. -/
theorem string_data_append (s t : String) : (s ++ t).data = s.data ++ t.data := rfl

/-- A prefix of a list is a prefix of any right extension of it. -/
theorem isPrefixOf_append_extend (a s t : List Char) (h : a.isPrefixOf s = true) :
    a.isPrefixOf (s ++ t) = true := by
  have h2 : a <+: s := by simpa using h
  have h3 : a <+: s ++ t := h2.trans (List.prefix_append s t)
  simpa using h3

/-- The empty pattern occurs in every list. -/
theorem infixCheck_nil_pat (s : List Char) : infixCheck [] s = true := by
  cases s with
  | nil => rfl
  | cons c rest => simp [infixCheck, List.isPrefixOf]

/-- An occurrence survives prepending one character. -/
theorem infixCheck_cons_extend (pat s : List Char) (c : Char) (h : infixCheck pat s = true) :
    infixCheck pat (c :: s) = true := by
  simp [infixCheck, h]

/-- An occurrence survives prepending any list. -/
theorem infixCheck_append_left (pat a s : List Char) (h : infixCheck pat s = true) :
    infixCheck pat (a ++ s) = true := by
  induction a with
  | nil => exact h
  | cons c cs ih => exact infixCheck_cons_extend pat (cs ++ s) c ih

/-- An occurrence survives appending any list. -/
theorem infixCheck_append_right (pat s t : List Char) (h : infixCheck pat s = true) :
    infixCheck pat (s ++ t) = true := by
  induction s with
  | nil =>
    have hp : pat = [] := by
      cases pat with
      | nil => rfl
      | cons c cs => simp [infixCheck] at h
    subst hp
    exact infixCheck_nil_pat t
  | cons c rest ih =>
    rw [List.cons_append]
    have h2 : pat.isPrefixOf (c :: rest) = true ∨ infixCheck pat rest = true := by
      simpa [infixCheck] using h
    cases h2 with
    | inl hpre =>
      have h3 := isPrefixOf_append_extend pat (c :: rest) t hpre
      simp [infixCheck]
      exact Or.inl (by simpa using h3)
    | inr hr => exact infixCheck_cons_extend pat (rest ++ t) c (ih hr)

/-- When the envelope dict has a candidates entry, the line-76 guard
evaluates to the truthiness of that entry. -/
theorem pyCond_of_getKey (entries : List (String × PyVal)) (v : PyVal)
    (h : (PyVal.pyDict entries).getKey "candidates" = .ok v) :
    pyCondCandidates (.pyDict entries) = .ok v.truthy := by
  have hcontains : pyContains (.pyDict entries) "candidates"
      = .ok (entries.any (fun f => f.1 == "candidates")) := rfl
  have hget : (PyVal.pyDict entries).getKey "candidates"
      = (match entries.find? (fun f => f.1 == "candidates") with
         | some f => Except.ok f.2
         | none => Except.error (PyError.keyError "candidates")) := rfl
  cases hf : entries.find? (fun f => f.1 == "candidates") with
  | none =>
    rw [hget, hf] at h
    exact absurd h (by simp)
  | some f =>
    have hany : entries.any (fun f => f.1 == "candidates") = true := by
      have hm := List.mem_of_find?_eq_some hf
      have hp := List.find?_some hf
      rw [List.any_eq_true]
      exact ⟨f, hm, hp⟩
    simp [pyCondCandidates, hcontains, hany, h]

/-- When the envelope dict has a candidates entry holding a non-empty list,
the line-77 chain is the candidate chain applied to the first candidate. -/
theorem extractText_first_candidate (entries : List (String × PyVal)) (c0 : PyVal)
    (rest : List PyVal)
    (h : (PyVal.pyDict entries).getKey "candidates" = .ok (.pyList (c0 :: rest))) :
    extractText (.pyDict entries) = candidateText c0 := by
  unfold extractText
  rw [h]
  rfl

/-! ## Claim theorems -/

/-- C3: if the API key is absent from the configuration, `call_gemini` fails
with the configuration error (the `st.error` + `st.stop` path) and performs
zero network calls, whatever the HTTP interaction would have produced: the
operation aborts before any request is sent. -/
theorem sdr_c3_missing_key_zero_network_calls :
    ∀ resp : HttpResult, call_gemini none resp = (.configurationError, 0) := by
  intro resp
  rfl

/-- C4: `get_customer_reference` checks its keyword categories in fixed source
order (application, then ai/ml, then finance, then default). The lower-cased
input "AI-powered applications" contains both the "application" and the "ai"
keyword, and the result is the "application" (Instacart) reference sentence,
not the AI/ML (Western Union) one. -/
theorem sdr_c4_priority_application_over_ai :
    strContains (pyLower "AI-powered applications") "application" = true
    ∧ strContains (pyLower "AI-powered applications") "ai" = true
    ∧ get_customer_reference "AI-powered applications" = instacart_reference
    ∧ get_customer_reference "AI-powered applications" ≠ western_union_reference := by
  refine ⟨rfl, rfl, rfl, ?_⟩
  decide

/-- C5: for every record with personaName "Jane Doe" and every opening
statement whose text is "Hi [Persona Name], this is [SDR Name].", the
placeholder substitution of the renderer produces
"Hi Jane Doe, this is [Your Name]." (the token "[Persona Name]" replaced by
the record field, "[SDR Name]" by the fixed literal "[Your Name]"). -/
theorem sdr_c5_placeholder_substitution (fd : FormData) (statement : String)
    (h1 : fd.personaName = "Jane Doe")
    (h2 : statement = "Hi [Persona Name], this is [SDR Name].") :
    render_statement fd statement = "Hi Jane Doe, this is [Your Name]." := by
  subst h2
  show pyReplace (pyReplace "Hi [Persona Name], this is [SDR Name]." "[Persona Name]" fd.personaName)
      "[SDR Name]" "[Your Name]" = "Hi Jane Doe, this is [Your Name]."
  rw [h1]
  rfl

/-- C5 witness at a concrete record. -/
theorem sdr_c5_witness :
    render_statement ⟨"Jane Doe", "VP of Engineering", "InnovateFin", "Prospect", "", ""⟩
      "Hi [Persona Name], this is [SDR Name]." = "Hi Jane Doe, this is [Your Name]." :=
  sdr_c5_placeholder_substitution _ _ rfl rfl

/-- C6: for every record whose linkedinInfo (respectively supportingInfo) is
the empty string, the rendered at-a-glance intel section contains the full
bullet text with the literal placeholder "Not provided." for that field. -/
theorem sdr_c6_not_provided_placeholder (fd : FormData) :
    (fd.linkedinInfo = "" →
      strContains (intel_section fd) "- **LinkedIn Intel:** Not provided." = true)
    ∧ (fd.supportingInfo = "" →
      strContains (intel_section fd) "- **Key Trigger Intel:** Not provided." = true) := by
  constructor
  · intro h
    unfold strContains
    have hstep : (intel_section fd).data =
        "\n        - **Persona:** ".data ++ (fd.personaName.data ++ (", ".data ++ (fd.title.data ++
        ("\n        - **Account:** ".data ++ (fd.accountName.data ++ (" (".data ++ (fd.status.data ++
        (")\n        - **LinkedIn Intel:** ".data ++ ("Not provided.".data ++
        ("\n        - **Key Trigger Intel:** ".data ++ ((pyOrStr fd.supportingInfo "Not provided.").data ++
        "\n        ".data))))))))))) := by
      simp [intel_section, h, pyOrStr, string_data_append, List.append_assoc]
    rw [hstep]
    apply infixCheck_append_left
    apply infixCheck_append_left
    apply infixCheck_append_left
    apply infixCheck_append_left
    apply infixCheck_append_left
    apply infixCheck_append_left
    apply infixCheck_append_left
    apply infixCheck_append_left
    rw [← List.append_assoc]
    apply infixCheck_append_right
    decide
  · intro h
    unfold strContains
    have hstep : (intel_section fd).data =
        "\n        - **Persona:** ".data ++ (fd.personaName.data ++ (", ".data ++ (fd.title.data ++
        ("\n        - **Account:** ".data ++ (fd.accountName.data ++ (" (".data ++ (fd.status.data ++
        (")\n        - **LinkedIn Intel:** ".data ++ ((pyOrStr fd.linkedinInfo "Not provided.").data ++
        ("\n        - **Key Trigger Intel:** ".data ++ ("Not provided.".data ++
        "\n        ".data))))))))))) := by
      simp [intel_section, h, pyOrStr, string_data_append, List.append_assoc]
    rw [hstep]
    apply infixCheck_append_left
    apply infixCheck_append_left
    apply infixCheck_append_left
    apply infixCheck_append_left
    apply infixCheck_append_left
    apply infixCheck_append_left
    apply infixCheck_append_left
    apply infixCheck_append_left
    apply infixCheck_append_left
    apply infixCheck_append_left
    rw [← List.append_assoc]
    apply infixCheck_append_right
    decide

/-- C6 witness at a concrete record with both optional fields empty. -/
theorem sdr_c6_witness :
    strContains (intel_section ⟨"Jane Doe", "VP of Engineering", "InnovateFin", "Prospect", "", ""⟩)
        "- **LinkedIn Intel:** Not provided." = true
    ∧ strContains (intel_section ⟨"Jane Doe", "VP of Engineering", "InnovateFin", "Prospect", "", ""⟩)
        "- **Key Trigger Intel:** Not provided." = true :=
  ⟨(sdr_c6_not_provided_placeholder _).1 rfl, (sdr_c6_not_provided_placeholder _).2 rfl⟩

/-- C8: `get_customer_reference` is total and deterministic: for every
useCase string it returns one of the four fixed reference sentences (it never
fails), and two calls with the same useCase string return the same
sentence. -/
theorem sdr_c8_total_deterministic :
    ∀ use_case : String,
      (get_customer_reference use_case = instacart_reference
        ∨ get_customer_reference use_case = western_union_reference
        ∨ get_customer_reference use_case = blackrock_reference
        ∨ get_customer_reference use_case = capital_one_reference)
      ∧ (∀ other : String, use_case = other →
          get_customer_reference use_case = get_customer_reference other) := by
  intro u
  constructor
  · simp only [get_customer_reference]
    split
    · exact Or.inl rfl
    · split
      · exact Or.inr (Or.inl rfl)
      · split
        · exact Or.inr (Or.inr (Or.inl rfl))
        · exact Or.inr (Or.inr (Or.inr rfl))
  · intro v h
    rw [h]

/-- C8 witness at a concrete useCase. -/
theorem sdr_c8_witness :
    (get_customer_reference "finance data" = instacart_reference
      ∨ get_customer_reference "finance data" = western_union_reference
      ∨ get_customer_reference "finance data" = blackrock_reference
      ∨ get_customer_reference "finance data" = capital_one_reference)
    ∧ get_customer_reference "finance data" = get_customer_reference "finance data" :=
  ⟨(sdr_c8_total_deterministic "finance data").1,
    (sdr_c8_total_deterministic "finance data").2 "finance data" rfl⟩

/-- C9: keyword matching is raw case-insensitive substring matching, not word
matching: every useCase whose lower-cased text contains the letter sequence
"ai" anywhere (such as inside "retail analytics") and does not contain
"application" yields the AI/ML (Western Union) reference sentence. -/
theorem sdr_c9_raw_substring_ai (use_case : String)
    (h1 : strContains (pyLower use_case) "ai" = true)
    (h2 : strContains (pyLower use_case) "application" = false) :
    get_customer_reference use_case = western_union_reference := by
  simp [get_customer_reference, h1, h2]

/-- C9 witness: "retail analytics" contains "ai" only inside a longer word. -/
theorem sdr_c9_witness :
    strContains (pyLower "retail analytics") "ai" = true
    ∧ strContains (pyLower "retail analytics") "application" = false
    ∧ get_customer_reference "retail analytics" = western_union_reference :=
  ⟨rfl, rfl, sdr_c9_raw_substring_ai "retail analytics" rfl rfl⟩

/-- C2: for every HTTP 200 envelope with no candidates entry, `call_gemini`
returns the malformed-response error carrying the raw envelope (surfaced for
diagnostics via `st.json`), after exactly one network call, and the renderer
guard `if ai_data:` is false, so no output is rendered for that
submission. -/
theorem sdr_c2_malformed_envelope (k : String) (envelope : PyVal)
    (h : pyContains envelope "candidates" = .ok false) :
    call_gemini (some k) (.success envelope) = (.malformedResponse envelope, 1)
    ∧ renderer_invoked (call_gemini (some k) (.success envelope)).1 = false := by
  have hc : pyCondCandidates envelope = .ok false := by
    simp [pyCondCandidates, h]
  constructor
  · simp [call_gemini, hc]
  · simp [call_gemini, hc, renderer_invoked]

/-- C2 witness at a concrete candidate-free envelope. -/
theorem sdr_c2_witness :
    pyContains (PyVal.pyDict [("error", PyVal.pyStr "quota")]) "candidates" = .ok false
    ∧ call_gemini (some "key") (.success (PyVal.pyDict [("error", PyVal.pyStr "quota")]))
        = (.malformedResponse (PyVal.pyDict [("error", PyVal.pyStr "quota")]), 1)
    ∧ renderer_invoked (call_gemini (some "key")
        (.success (PyVal.pyDict [("error", PyVal.pyStr "quota")]))).1 = false :=
  ⟨rfl, (sdr_c2_malformed_envelope "key" (PyVal.pyDict [("error", PyVal.pyStr "quota")]) rfl).1,
    (sdr_c2_malformed_envelope "key" (PyVal.pyDict [("error", PyVal.pyStr "quota")]) rfl).2⟩

/-- C7: for every candidate whose embedded text field does not parse as JSON,
`call_gemini` fails with the decode error (the caught `json.JSONDecodeError`
path) rather than returning a result or raising an unhandled exception. -/
theorem sdr_c7_non_json_text_decode_error (k text : String)
    (h : pyJsonLoads text = none) :
    call_gemini (some k) (.success (mkEnvelope text)) = (.decodeError, 1) := by
  have hc : pyCondCandidates (mkEnvelope text) = .ok true := rfl
  have he : extractText (mkEnvelope text) = .ok (.pyStr text) := rfl
  simp [call_gemini, hc, he, h]

/-- C7 witness at the embedded text "not json". -/
theorem sdr_c7_witness :
    pyJsonLoads "not json" = none
    ∧ call_gemini (some "key") (.success (mkEnvelope "not json")) = (.decodeError, 1) :=
  ⟨rfl, sdr_c7_non_json_text_decode_error "key" "not json" rfl⟩

/-- C1 counterexample: with the embedded payload text
"\x7b\"justification\": \"x\"\x7d" the code returns the parsed object as a
successful result even though it lacks the useCase, discoveryQuestions and
openingStatements fields: the payload is not reported as a malformed-response
error, and, being truthy, it passes the `if ai_data:` guard and reaches the
renderer (whose later access to the missing useCase field is a KeyError). -/
theorem sdr_c1_counterexample :
    call_gemini (some "key") (.success (mkEnvelope "\x7b\"justification\": \"x\"\x7d"))
      = (.ok (.pyDict [("justification", .pyStr "x")]), 1)
    ∧ (PyVal.pyDict [("justification", .pyStr "x")]).getKey "useCase" = .error (.keyError "useCase")
    ∧ renderer_invoked (.ok (.pyDict [("justification", .pyStr "x")])) = true :=
  ⟨rfl, rfl, rfl⟩

/-- C1 amended: `call_gemini` performs no validation of the four required
fields: whenever the embedded candidate text parses as JSON, the parsed
payload is returned as the successful result exactly as parsed, whatever
fields it has or lacks. -/
theorem sdr_c1_amended_no_field_validation (k text : String) (payload : PyVal)
    (h : pyJsonLoads text = some payload) :
    call_gemini (some k) (.success (mkEnvelope text)) = (.ok payload, 1) := by
  have hc : pyCondCandidates (mkEnvelope text) = .ok true := rfl
  have he : extractText (mkEnvelope text) = .ok (.pyStr text) := rfl
  simp [call_gemini, hc, he, h]

/-- C1 amended witness at a concrete payload missing three required fields. -/
theorem sdr_c1_amended_witness :
    pyJsonLoads "\x7b\"justification\": \"j\"\x7d" = some (.pyDict [("justification", .pyStr "j")])
    ∧ call_gemini (some "key") (.success (mkEnvelope "\x7b\"justification\": \"j\"\x7d"))
        = (.ok (.pyDict [("justification", .pyStr "j")]), 1) :=
  ⟨rfl, sdr_c1_amended_no_field_validation "key" _ _ rfl⟩

/-- C10: for every envelope dict whose candidates entry holds a non-empty
list, whenever the first candidate lacks any part of the nested
content/parts/text structure (so the line-77 subscript chain from the first
candidate fails with some Python exception, a KeyError for a missing
content/parts/text key or an IndexError for an empty parts list),
`call_gemini` ends in that uncaught exception after one network call, rather
than failing with any of the four taxonomy errors. -/
theorem sdr_c10_missing_structure_uncaught :
    ∀ (k : String) (entries : List (String × PyVal)) (c0 : PyVal) (rest : List PyVal)
      (e : PyError),
      (PyVal.pyDict entries).getKey "candidates" = .ok (.pyList (c0 :: rest)) →
      candidateText c0 = .error e →
      call_gemini (some k) (.success (.pyDict entries)) = (.uncaught e, 1) := by
  intro k entries c0 rest e hcand hfail
  have hc : pyCondCandidates (.pyDict entries) = .ok true := by
    have h1 := pyCond_of_getKey entries (.pyList (c0 :: rest)) hcand
    simpa [PyVal.truthy, List.isEmpty] using h1
  have he : extractText (.pyDict entries) = .error e := by
    rw [extractText_first_candidate entries c0 rest hcand, hfail]
  simp [call_gemini, hc, he]

/-- C10 witness at the malformation families: first candidate without a
content key, content without a parts key, empty parts list, first part
without a text key, and a multi-candidate list with a malformed first
candidate. -/
theorem sdr_c10_witness :
    call_gemini (some "key") (.success (PyVal.pyDict [("candidates",
        PyVal.pyList [PyVal.pyDict [("finishReason", PyVal.pyStr "STOP")]])]))
      = (.uncaught (.keyError "content"), 1)
    ∧ call_gemini (some "key") (.success (PyVal.pyDict [("candidates",
        PyVal.pyList [PyVal.pyDict [("content", PyVal.pyDict [])]])]))
      = (.uncaught (.keyError "parts"), 1)
    ∧ call_gemini (some "key") (.success (PyVal.pyDict [("candidates",
        PyVal.pyList [PyVal.pyDict [("content", PyVal.pyDict [("parts", PyVal.pyList [])])]])]))
      = (.uncaught .indexError, 1)
    ∧ call_gemini (some "key") (.success (PyVal.pyDict [("candidates",
        PyVal.pyList [PyVal.pyDict [("content",
          PyVal.pyDict [("parts", PyVal.pyList [PyVal.pyDict [("role", PyVal.pyStr "model")]])])]])]))
      = (.uncaught (.keyError "text"), 1)
    ∧ call_gemini (some "key") (.success (PyVal.pyDict [("candidates",
        PyVal.pyList [PyVal.pyDict [], PyVal.pyDict [("content", PyVal.pyStr "full")]])]))
      = (.uncaught (.keyError "content"), 1) :=
  ⟨sdr_c10_missing_structure_uncaught "key"
      [("candidates", PyVal.pyList [PyVal.pyDict [("finishReason", PyVal.pyStr "STOP")]])]
      (PyVal.pyDict [("finishReason", PyVal.pyStr "STOP")]) [] (.keyError "content") rfl rfl,
    sdr_c10_missing_structure_uncaught "key"
      [("candidates", PyVal.pyList [PyVal.pyDict [("content", PyVal.pyDict [])]])]
      (PyVal.pyDict [("content", PyVal.pyDict [])]) [] (.keyError "parts") rfl rfl,
    sdr_c10_missing_structure_uncaught "key"
      [("candidates", PyVal.pyList [PyVal.pyDict [("content", PyVal.pyDict [("parts", PyVal.pyList [])])]])]
      (PyVal.pyDict [("content", PyVal.pyDict [("parts", PyVal.pyList [])])]) [] .indexError rfl rfl,
    sdr_c10_missing_structure_uncaught "key"
      [("candidates", PyVal.pyList [PyVal.pyDict [("content",
        PyVal.pyDict [("parts", PyVal.pyList [PyVal.pyDict [("role", PyVal.pyStr "model")]])])]])]
      (PyVal.pyDict [("content",
        PyVal.pyDict [("parts", PyVal.pyList [PyVal.pyDict [("role", PyVal.pyStr "model")]])])])
      [] (.keyError "text") rfl rfl,
    sdr_c10_missing_structure_uncaught "key"
      [("candidates", PyVal.pyList [PyVal.pyDict [], PyVal.pyDict [("content", PyVal.pyStr "full")]])]
      (PyVal.pyDict []) [PyVal.pyDict [("content", PyVal.pyStr "full")]] (.keyError "content") rfl rfl⟩
